import Mathlib

/-!
Shallow embedding of the InsightsLog/agent macroeconomic-news agent
(src/macroeconomic_agent): the sentiment analyzer, the briefing storage
(SQLite tables modelled as in-memory row lists), and the agent's
briefing/notification pipeline.  Timestamps are modelled as integers
(minutes); Python floats are modelled as exact rationals; the TextBlob
polarity scorer is an external capability and is a function parameter;
Python `str.lower` and the `re` word characters are modelled over ASCII,
which is the alphabet of every configured keyword and every concrete
input used below.
-/

set_option maxRecDepth 100000

namespace MacroAgent

/-- Sentiment enum (models.Sentiment). -/
inductive Sentiment where
  | bullish
  | bearish
  | neutral
deriving DecidableEq, Repr

/-- The string value of a Sentiment (Python enum `.value`). -/
def Sentiment.value : Sentiment → String
  | .bullish => "bullish"
  | .bearish => "bearish"
  | .neutral => "neutral"

/-- Impact level enum (models.ImpactLevel). -/
inductive ImpactLevel where
  | low
  | medium
  | high
deriving DecidableEq, Repr

/-- The string value of an ImpactLevel (Python enum `.value`). -/
def ImpactLevel.value : ImpactLevel → String
  | .low => "low"
  | .medium => "medium"
  | .high => "high"

/-! ## String utilities mirroring the Python operations used by the code -/

/-- ASCII lowering of one character, modelling Python `str.lower` on the
ASCII alphabet (all configured keywords and concrete inputs are ASCII). -/
def lowerChar (c : Char) : Char :=
  if 'A' ≤ c ∧ c ≤ 'Z' then Char.ofNat (c.toNat + 32) else c

/-- Lower a whole string. -/
def lowerStr (s : String) : String := ⟨s.data.map lowerChar⟩

/-- `prefixOf n h` holds when the char list `n` is a prefix of `h`. -/
def prefixOf : List Char → List Char → Bool
  | [], _ => true
  | _ :: _, [] => false
  | a :: as, b :: bs => a = b && prefixOf as bs

/-- `infixOf n h`: `n` occurs contiguously inside `h` (Python `n in h`). -/
def infixOf (n : List Char) : List Char → Bool
  | [] => n.isEmpty
  | c :: t => prefixOf n (c :: t) || infixOf n t

/-- Python's substring containment `needle in hay`. -/
def strContains (hay needle : String) : Bool := infixOf needle.data hay.data

/-- Number of occurrences of the character `c` (Python `str.count` for a
single-character needle). -/
def countCh (c : Char) (s : String) : Nat :=
  (s.data.filter (fun d => d = c)).length

/-- Uppercase ASCII letter, the regex class `[A-Z]`. -/
def isUpperA (c : Char) : Bool := 'A' ≤ c && c ≤ 'Z'

/-- Word character (`\w` over ASCII): letter, digit or underscore. -/
def isWordCh (c : Char) : Bool :=
  ('A' ≤ c && c ≤ 'Z') || ('a' ≤ c && c ≤ 'z') || ('0' ≤ c && c ≤ '9') || c = '_'

/-- One-pass scanner counting the matches of the regex `\b[A-Z]{4,}\b`
(re.findall in `is_manipulation`): maximal runs of uppercase letters of
length at least 4 whose neighbours (when present) are not word
characters.  State: current run length, whether the run started at a
word boundary, whether the previous character was a word character. -/
def capsGo : Nat → Bool → Bool → List Char → Nat
  | runLen, startOk, _, [] => if 4 ≤ runLen ∧ startOk then 1 else 0
  | runLen, startOk, prevWord, c :: cs =>
    if isUpperA c then
      capsGo (runLen + 1) (if runLen = 0 then !prevWord else startOk) true cs
    else
      (if 4 ≤ runLen ∧ startOk ∧ !isWordCh c then 1 else 0) +
        capsGo 0 false (isWordCh c) cs

/-- Number of regex matches of `\b[A-Z]{4,}\b` in a string. -/
def capsMatchCount (s : String) : Nat := capsGo 0 false false s.data

/-- Counter for the spec's wording of the caps rule: the number of maximal
runs of 4 or more consecutive uppercase letters, with no word-boundary
requirement.  This follows the spec's words, for comparison with
`capsMatchCount`, which follows the code's regex. -/
def capsRunGo : Nat → List Char → Nat
  | runLen, [] => if 4 ≤ runLen then 1 else 0
  | runLen, c :: cs =>
    if isUpperA c then capsRunGo (runLen + 1) cs
    else (if 4 ≤ runLen then 1 else 0) + capsRunGo 0 cs

/-- Number of maximal runs of 4+ consecutive uppercase letters (spec wording). -/
def capsRunCount (s : String) : Nat := capsRunGo 0 s.data

/-- Python `":".join(xs)`. -/
def joinColon : List String → String
  | [] => ""
  | [x] => x
  | x :: y :: t => x ++ ":" ++ joinColon (y :: t)

/-! ## Data model

Modelled from the spec: `models.py` is absent from the source tree (only
`tests/test_models.py` and the importing modules reference it).  The field
names, types and defaults below follow spec §3 and the assertions of
`tests/test_models.py` (e.g. `impact_level` defaults to medium,
`is_noise`/`is_manipulation` default to false, `UpcomingRelease.notified`
defaults to false, `SentimentBriefing.sent` defaults to false). -/

/-- Modelled from the spec: a NewsItem (models.NewsItem), a unit of input
text with classifier outputs. -/
structure NewsItem where
  id : String
  title : String
  content : String
  source : String
  url : Option String := none
  published_at : Int
  impact_level : ImpactLevel := .medium
  raw_sentiment_score : Rat := 0
  sentiment : Sentiment := .neutral
  is_noise : Bool := false
  is_manipulation : Bool := false
deriving DecidableEq, Repr

/-- Modelled from the spec: an EconomicIndicator (models.EconomicIndicator),
a scheduled or past economic data release. -/
structure EconomicIndicator where
  id : String
  name : String
  country : String
  release_time : Int
  impact_level : ImpactLevel
  previous_value : Option String := none
  forecast_value : Option String := none
  actual_value : Option String := none
deriving DecidableEq, Repr

/-- Modelled from the spec: an UpcomingRelease (models.UpcomingRelease)
binding an Indicator to a `notified` boolean, false at creation. -/
structure UpcomingRelease where
  indicator : EconomicIndicator
  notified : Bool := false
deriving DecidableEq, Repr

/-- Modelled from the spec: a SentimentBriefing (models.SentimentBriefing),
the aggregated output artifact. -/
structure SentimentBriefing where
  id : String
  created_at : Int
  briefing_type : String
  title : String
  summary : String
  overall_sentiment : Sentiment
  key_points : List String := []
  news_items : List NewsItem := []
  indicators : List EconomicIndicator := []
  content_hash : String := ""
  sent : Bool := false
  sent_at : Option Int := none
deriving DecidableEq, Repr

/-! ## Analyzer (analyzer.SentimentAnalyzer) -/

/-- The analyzer's configuration and its pluggable polarity scorer
(TextBlob in the source, an external capability here). -/
structure Analyzer where
  sentimentThreshold : Rat
  noiseKeywords : List String
  manipulationKeywords : List String
  scorer : String → Rat

/-- The default noise keywords: `settings.noise_filter_keywords` split on
commas, stripped and lowered. -/
def defaultNoiseKeywords : List String :=
  ["rumor", "speculation", "might", "could", "possibly", "unconfirmed"]

/-- The default manipulation keywords: `settings.manipulation_keywords`
split on commas, stripped and lowered. -/
def defaultManipulationKeywords : List String :=
  ["guaranteed", "certain", "definitely", "crash", "moon", "rocket", "doom"]

/-- `SentimentAnalyzer.analyze_sentiment`: empty text scores (0, neutral);
otherwise the scorer's polarity is classified against the threshold. -/
def analyze_sentiment (A : Analyzer) (text : String) : Rat × Sentiment :=
  if text = "" then (0, .neutral)
  else
    let polarity := A.scorer text
    if polarity > A.sentimentThreshold then (polarity, .bullish)
    else if polarity < -A.sentimentThreshold then (polarity, .bearish)
    else (polarity, .neutral)

/-- `SentimentAnalyzer.is_noise`: short body, noise keyword in the lowered
title+body, or excessive `!`/`?` punctuation. -/
def is_noise (A : Analyzer) (item : NewsItem) : Bool :=
  if item.content.length < 50 then true
  else
    let combined := lowerStr (item.title ++ " " ++ item.content)
    if A.noiseKeywords.any (fun kw => strContains combined kw) then true
    else
      let exclamationCount := countCh '!' combined
      let questionCount := countCh '?' combined
      if exclamationCount > 3 ∨ questionCount > 3 then true
      else false

/-- Absolute value on the rationals, written so that it evaluates (Python
`abs`). -/
def ratAbs (q : Rat) : Rat := if q < 0 then -q else q

/-- `SentimentAnalyzer.is_manipulation`: two or more manipulation keywords
in the lowered title+body, more than two `\b[A-Z]{4,}\b` matches in the
raw title+body, or absolute polarity of the lowered text above 0.8
(`mkRat 8 10`). -/
def is_manipulation (A : Analyzer) (item : NewsItem) : Bool :=
  let combined := lowerStr (item.title ++ " " ++ item.content)
  let manipulationCount :=
    (A.manipulationKeywords.filter (fun kw => strContains combined kw)).length
  if manipulationCount ≥ 2 then true
  else
    let capsMatches := capsMatchCount (item.title ++ " " ++ item.content)
    if capsMatches > 2 then true
    else
      let polarity := (analyze_sentiment A combined).1
      if ratAbs polarity > mkRat 8 10 then true
      else false

/-- `SentimentAnalyzer.process_item`: attach sentiment and both flags. -/
def process_item (A : Analyzer) (item : NewsItem) : NewsItem :=
  let scored := analyze_sentiment A (item.title ++ " " ++ item.content)
  { item with
    raw_sentiment_score := scored.1
    sentiment := scored.2
    is_noise := is_noise A item
    is_manipulation := is_manipulation A item }

/-- The aggregation weight table `impact_weights.get(value, 1.0)`:
high = 3, medium = 1.5, low = 1, anything else defaults to 1. -/
def impactWeight (s : String) : Rat :=
  if s = "high" then 3
  else if s = "medium" then mkRat 3 2
  else if s = "low" then 1
  else 1

/-- `SentimentAnalyzer.aggregate_sentiment`: filter out noise/manipulation,
weight by impact level, return the weighted mean and its classification. -/
def aggregate_sentiment (A : Analyzer) (items : List NewsItem) : Rat × Sentiment :=
  let validItems := items.filter (fun i => !i.is_noise && !i.is_manipulation)
  if validItems.isEmpty then (0, .neutral)
  else
    let sums := validItems.foldl
      (fun acc i =>
        let w := impactWeight i.impact_level.value
        (acc.1 + i.raw_sentiment_score * w, acc.2 + w))
      ((0 : Rat), (0 : Rat))
    if sums.2 = 0 then (0, .neutral)
    else
      let avgScore := sums.1 / sums.2
      if avgScore > A.sentimentThreshold then (avgScore, .bullish)
      else if avgScore < -A.sentimentThreshold then (avgScore, .bearish)
      else (avgScore, .neutral)

/-! ## SHA-256 (FIPS 180-4), the algorithm behind `hashlib.sha256` -/

/-- Truncate to a 32-bit word. -/
def w32 (x : Nat) : Nat := x % 4294967296

/-- 32-bit complement. -/
def bnot32 (x : Nat) : Nat := 4294967295 - w32 x

/-- 32-bit right rotation. -/
def rotr32 (n x : Nat) : Nat := w32 ((x >>> n) ||| (x <<< (32 - n)))

/-- SHA-256 Ch function. -/
def shaCh (x y z : Nat) : Nat := (x &&& y) ^^^ (bnot32 x &&& z)

/-- SHA-256 Maj function. -/
def shaMaj (x y z : Nat) : Nat := (x &&& y) ^^^ (x &&& z) ^^^ (y &&& z)

/-- SHA-256 big sigma 0. -/
def sigmaBig0 (x : Nat) : Nat := rotr32 2 x ^^^ rotr32 13 x ^^^ rotr32 22 x

/-- SHA-256 big sigma 1. -/
def sigmaBig1 (x : Nat) : Nat := rotr32 6 x ^^^ rotr32 11 x ^^^ rotr32 25 x

/-- SHA-256 small sigma 0. -/
def sigmaSml0 (x : Nat) : Nat := rotr32 7 x ^^^ rotr32 18 x ^^^ (x >>> 3)

/-- SHA-256 small sigma 1. -/
def sigmaSml1 (x : Nat) : Nat := rotr32 17 x ^^^ rotr32 19 x ^^^ (x >>> 10)

/-- The 64 SHA-256 round constants (FIPS 180-4 §4.2.2, written in
decimal). -/
def K256 : List Nat :=
  [1116352408, 1899447441, 3049323471, 3921009573,
   961987163, 1508970993, 2453635748, 2870763221,
   3624381080, 310598401, 607225278, 1426881987,
   1925078388, 2162078206, 2614888103, 3248222580,
   3835390401, 4022224774, 264347078, 604807628,
   770255983, 1249150122, 1555081692, 1996064986,
   2554220882, 2821834349, 2952996808, 3210313671,
   3336571891, 3584528711, 113926993, 338241895,
   666307205, 773529912, 1294757372, 1396182291,
   1695183700, 1986661051, 2177026350, 2456956037,
   2730485921, 2820302411, 3259730800, 3345764771,
   3516065817, 3600352804, 4094571909, 275423344,
   430227734, 506948616, 659060556, 883997877,
   958139571, 1322822218, 1537002063, 1747873779,
   1955562222, 2024104815, 2227730452, 2361852424,
   2428436474, 2756734187, 3204031479, 3329325298]

/-- The eight SHA-256 working words. -/
structure Sha256State where
  a : Nat
  b : Nat
  c : Nat
  d : Nat
  e : Nat
  f : Nat
  g : Nat
  h : Nat
deriving DecidableEq, Repr

/-- The SHA-256 initial hash value (FIPS 180-4 §5.3.3, written in
decimal). -/
def sha256Init : Sha256State :=
  ⟨1779033703, 3144134277, 1013904242, 2773480762,
   1359893119, 2600822924, 528734635, 1541459225⟩

/-- SHA-256 padding: append 0x80, zeros to 56 mod 64, then the bit length
as eight big-endian bytes. -/
def shaPad (msg : List Nat) : List Nat :=
  let bitLen := 8 * msg.length
  let zeros := (120 - ((msg.length + 1) % 64)) % 64
  msg ++ [0x80] ++ List.replicate zeros 0 ++
    [(bitLen >>> 56) % 256, (bitLen >>> 48) % 256, (bitLen >>> 40) % 256,
     (bitLen >>> 32) % 256, (bitLen >>> 24) % 256, (bitLen >>> 16) % 256,
     (bitLen >>> 8) % 256, bitLen % 256]

/-- Split a byte list into 64-byte chunks (structural recursion on a fuel
bound, so that the definition evaluates; the fuel `l.length` always
suffices since each step consumes 64 bytes). -/
def chunks64Go : Nat → List Nat → List (List Nat)
  | 0, _ => []
  | _, [] => []
  | fuel + 1, c :: cs => ((c :: cs).take 64) :: chunks64Go fuel ((c :: cs).drop 64)

/-- Split a byte list into 64-byte chunks. -/
def chunks64 (l : List Nat) : List (List Nat) := chunks64Go l.length l

/-- Pack bytes into big-endian 32-bit words. -/
def bytesToWords : List Nat → List Nat
  | b0 :: b1 :: b2 :: b3 :: t =>
    ((b0 <<< 24) + (b1 <<< 16) + (b2 <<< 8) + b3) :: bytesToWords t
  | _ => []

/-- Extend the (reversed) message schedule by `n` further words. -/
def extendW : Nat → List Nat → List Nat
  | 0, acc => acc
  | n + 1, acc =>
    let nw := w32 (sigmaSml1 (acc.getD 1 0) + acc.getD 6 0 +
      sigmaSml0 (acc.getD 14 0) + acc.getD 15 0)
    extendW n (nw :: acc)

/-- The 64-word message schedule of one chunk. -/
def scheduleOf (chunk : List Nat) : List Nat :=
  (extendW 48 (bytesToWords chunk).reverse).reverse

/-- One SHA-256 compression round, consuming a (schedule word, constant)
pair. -/
def shaRound (st : Sha256State) (wk : Nat × Nat) : Sha256State :=
  let t1 := w32 (st.h + sigmaBig1 st.e + shaCh st.e st.f st.g + wk.2 + wk.1)
  let t2 := w32 (sigmaBig0 st.a + shaMaj st.a st.b st.c)
  ⟨w32 (t1 + t2), st.a, st.b, st.c, w32 (st.d + t1), st.e, st.f, st.g⟩

/-- Process one 64-byte chunk. -/
def compressChunk (st : Sha256State) (chunk : List Nat) : Sha256State :=
  let ws := scheduleOf chunk
  let r := (ws.zip K256).foldl shaRound st
  ⟨w32 (st.a + r.a), w32 (st.b + r.b), w32 (st.c + r.c), w32 (st.d + r.d),
   w32 (st.e + r.e), w32 (st.f + r.f), w32 (st.g + r.g), w32 (st.h + r.h)⟩

/-- The final SHA-256 state of a byte message. -/
def sha256Final (msg : List Nat) : Sha256State :=
  (chunks64 (shaPad msg)).foldl compressChunk sha256Init

/-- Lowercase hex digit. -/
def hexDigitCh (n : Nat) : Char :=
  Char.ofNat (if n < 10 then 48 + n else 87 + n)

/-- Eight hex characters of one 32-bit word, most significant first. -/
def wordHexChars (w : Nat) : List Char :=
  [hexDigitCh ((w >>> 28) % 16), hexDigitCh ((w >>> 24) % 16),
   hexDigitCh ((w >>> 20) % 16), hexDigitCh ((w >>> 16) % 16),
   hexDigitCh ((w >>> 12) % 16), hexDigitCh ((w >>> 8) % 16),
   hexDigitCh ((w >>> 4) % 16), hexDigitCh (w % 16)]

/-- The 64-character hex rendering of a SHA-256 state. -/
def stateHexChars (st : Sha256State) : List Char :=
  wordHexChars st.a ++ wordHexChars st.b ++ wordHexChars st.c ++
    wordHexChars st.d ++ wordHexChars st.e ++ wordHexChars st.f ++
    wordHexChars st.g ++ wordHexChars st.h

/-- UTF-8 encoding of one character (Python `str.encode`). -/
def utf8EncodeChar (c : Char) : List Nat :=
  let n := c.toNat
  if n < 0x80 then [n]
  else if n < 0x800 then [0xC0 ||| (n >>> 6), 0x80 ||| (n &&& 0x3F)]
  else if n < 0x10000 then
    [0xE0 ||| (n >>> 12), 0x80 ||| ((n >>> 6) &&& 0x3F), 0x80 ||| (n &&& 0x3F)]
  else
    [0xF0 ||| (n >>> 18), 0x80 ||| ((n >>> 12) &&& 0x3F),
     0x80 ||| ((n >>> 6) &&& 0x3F), 0x80 ||| (n &&& 0x3F)]

/-- UTF-8 bytes of a string (Python `str.encode()`). -/
def utf8Bytes (s : String) : List Nat := (s.data.map utf8EncodeChar).flatten

/-- `hashlib.sha256(s.encode()).hexdigest()`. -/
def sha256hexOfString (s : String) : String :=
  ⟨stateHexChars (sha256Final (utf8Bytes s))⟩

/-! ## Storage (memory/storage.BriefingStorage)

The three SQLite tables are modelled as in-memory row lists.  Each row
carries exactly the columns the queries touch; the `full_data` JSON blob
is kept as the structured value it serializes.  `INSERT OR REPLACE` is an
upsert keyed by the primary key; `ORDER BY`/`LIMIT 1` become sort/max. -/

/-- A row of the `briefings` table. -/
structure BriefingRow where
  id : String
  created_at : Int
  briefing_type : String
  title : String
  summary : String
  overall_sentiment : String
  key_points : List String
  content_hash : String
  sent : Bool
  sent_at : Option Int
  full_data : SentimentBriefing
deriving DecidableEq, Repr

/-- A row of the `upcoming_releases` table.  `notified` is the column
touched by `mark_release_notified`; `snapshot_indicator` and
`snapshot_notified` are the `full_data` JSON blob, which is what
`get_upcoming_releases` reads back. -/
structure ReleaseRow where
  id : String
  indicator_name : String
  country : String
  release_time : Int
  impact_level : String
  notified : Bool
  snapshot_indicator : EconomicIndicator
  snapshot_notified : Bool
deriving DecidableEq, Repr

/-- A row of the `notification_log` table. -/
structure LogRow where
  briefing_id : String
  sent_at : Int
  channel : String
  success : Bool
  error_message : Option String
deriving DecidableEq, Repr

/-- The persisted store. -/
structure Storage where
  briefings : List BriefingRow
  releases : List ReleaseRow
  notification_log : List LogRow
deriving DecidableEq, Repr

/-- The empty store (fresh database). -/
def emptyStorage : Storage := ⟨[], [], []⟩

/-- `INSERT OR REPLACE` into `briefings`, keyed by `id`. -/
def upsertBriefingRow (rows : List BriefingRow) (r : BriefingRow) : List BriefingRow :=
  if rows.any (fun x => x.id = r.id) then
    rows.map (fun x => if x.id = r.id then r else x)
  else rows ++ [r]

/-- `INSERT OR REPLACE` into `upcoming_releases`, keyed by `id`. -/
def upsertReleaseRow (rows : List ReleaseRow) (r : ReleaseRow) : List ReleaseRow :=
  if rows.any (fun x => x.id = r.id) then
    rows.map (fun x => if x.id = r.id then r else x)
  else rows ++ [r]

/-- `BriefingStorage.save_briefing`. -/
def save_briefing (st : Storage) (b : SentimentBriefing) : Storage :=
  { st with
    briefings := upsertBriefingRow st.briefings
      ⟨b.id, b.created_at, b.briefing_type, b.title, b.summary,
       b.overall_sentiment.value, b.key_points, b.content_hash,
       b.sent, b.sent_at, b⟩ }

/-- `BriefingStorage.is_duplicate`: a successfully sent briefing with the
same content hash whose `created_at` lies inside the lookback window.
Hours are converted to the integer minute timeline. -/
def is_duplicate (st : Storage) (content_hash : String) (now : Int)
    (hoursLookback : Int) : Bool :=
  st.briefings.any (fun b =>
    decide (b.content_hash = content_hash) && b.sent &&
      decide (b.created_at > now - hoursLookback * 60))

/-- `BriefingStorage.get_last_notification_time`: latest `sent_at` among
sent briefings (`ORDER BY sent_at DESC LIMIT 1`). -/
def get_last_notification_time (st : Storage) : Option Int :=
  let times := st.briefings.filterMap (fun b => if b.sent then b.sent_at else none)
  match times with
  | [] => none
  | t :: ts => some (ts.foldl max t)

/-- `BriefingStorage.can_send_notification`: enough minutes elapsed since
the last sent notification. -/
def can_send_notification (st : Storage) (now : Int) (minIntervalMinutes : Int) : Bool :=
  match get_last_notification_time st with
  | none => true
  | some t => decide (now - t ≥ minIntervalMinutes)

/-- `BriefingStorage.mark_briefing_sent`: set `sent = 1, sent_at = now` on
the matching row. -/
def mark_briefing_sent (st : Storage) (briefing_id : String) (now : Int) : Storage :=
  { st with
    briefings := st.briefings.map (fun b =>
      if b.id = briefing_id then { b with sent := true, sent_at := some now } else b) }

/-- `BriefingStorage.save_upcoming_release`: upsert the release row,
writing both the columns and the `full_data` snapshot from the given
`UpcomingRelease`. -/
def save_upcoming_release (st : Storage) (release : UpcomingRelease) : Storage :=
  { st with
    releases := upsertReleaseRow st.releases
      ⟨release.indicator.id, release.indicator.name, release.indicator.country,
       release.indicator.release_time, release.indicator.impact_level.value,
       release.notified, release.indicator, release.notified⟩ }

/-- Insert a release row into a list sorted by ascending release time. -/
def insertByTime (r : ReleaseRow) : List ReleaseRow → List ReleaseRow
  | [] => [r]
  | x :: xs =>
    if r.release_time < x.release_time then r :: x :: xs
    else x :: insertByTime r xs

/-- `ORDER BY release_time ASC`. -/
def sortByTime (rows : List ReleaseRow) : List ReleaseRow :=
  rows.foldl (fun acc r => insertByTime r acc) []

/-- `BriefingStorage.get_upcoming_releases`: rows with
`now < release_time <= now + hours_ahead` (and impact `high` when
requested), ordered by release time, decoded from the `full_data`
snapshot. -/
def get_upcoming_releases (st : Storage) (now : Int) (hoursAhead : Int)
    (highImpactOnly : Bool) : List UpcomingRelease :=
  let rows := st.releases.filter (fun r =>
    decide (r.release_time > now) &&
      decide (r.release_time ≤ now + hoursAhead * 60) &&
      (!highImpactOnly || decide (r.impact_level = "high")))
  (sortByTime rows).map (fun r => ⟨r.snapshot_indicator, r.snapshot_notified⟩)

/-- `BriefingStorage.mark_release_notified`: set the `notified` column on
the matching row; no row matches an unknown id and the update is a no-op. -/
def mark_release_notified (st : Storage) (indicator_id : String) : Storage :=
  { st with
    releases := st.releases.map (fun r =>
      if r.id = indicator_id then { r with notified := true } else r) }

/-- `BriefingStorage.log_notification`: append one audit row. -/
def log_notification (st : Storage) (briefing_id : String) (now : Int)
    (channel : String) (success : Bool) (error_message : Option String) : Storage :=
  { st with
    notification_log :=
      st.notification_log ++ [⟨briefing_id, now, channel, success, error_message⟩] }

/-! ## Agent (agent.MacroeconomicAgent)

External effects become explicit inputs: fetched news and indicators are
parameters, each notifier's `send` outcome is a `ChannelAttempt`
(a returned boolean or a raised exception message), `uuid.uuid4()` is a
fresh-id source, and `datetime.utcnow()` is the `now` parameter. -/

/-- The observed outcome of one notifier's `send` call: either the
returned boolean or a raised exception's message. -/
inductive SendOutcome where
  | ok (success : Bool)
  | err (message : String)
deriving DecidableEq, Repr

/-- One notification channel together with its observed `send` outcome. -/
structure ChannelAttempt where
  channel_name : String
  outcome : SendOutcome
deriving DecidableEq, Repr

/-- Python `" ".join(xs)`. -/
def joinSpace : List String → String
  | [] => ""
  | [x] => x
  | x :: y :: t => x ++ " " ++ joinSpace (y :: t)

/-- Sort rank used for key points: high = 0, medium = 1, low = 2. -/
def impactRank : ImpactLevel → Nat
  | .high => 0
  | .medium => 1
  | .low => 2

/-- Strict order on the Python sort key
`(impact rank, -published_at.timestamp())`. -/
def keyLt (x y : NewsItem) : Bool :=
  decide (impactRank x.impact_level < impactRank y.impact_level) ||
    (decide (impactRank x.impact_level = impactRank y.impact_level) &&
      decide (-x.published_at < -y.published_at))

/-- Stable insertion (after equal keys) for the key-point sort. -/
def insertItem (x : NewsItem) : List NewsItem → List NewsItem
  | [] => [x]
  | y :: ys => if keyLt x y then x :: y :: ys else y :: insertItem x ys

/-- Python's stable `list.sort` on the key-point sort key. -/
def sortItems (l : List NewsItem) : List NewsItem :=
  l.foldl (fun acc x => insertItem x acc) []

/-- `MacroeconomicAgent._generate_key_points`: titles of the top five
valid items, sorted by impact then recency, truncated at 100 chars. -/
def generate_key_points (news_items : List NewsItem) : List String :=
  let validItems := news_items.filter (fun i => !i.is_noise && !i.is_manipulation)
  ((sortItems validItems).take 5).map (fun item =>
    if item.title.length > 100 then item.title.take 100 ++ "..." else item.title)

/-- `MacroeconomicAgent._generate_summary`. -/
def generate_summary (news_items : List NewsItem) (overall : Sentiment) : String :=
  let validCount := (news_items.filter (fun i => !i.is_noise && !i.is_manipulation)).length
  let noiseCount := (news_items.filter (fun i => i.is_noise)).length
  let manipulationCount := (news_items.filter (fun i => i.is_manipulation)).length
  let desc : String :=
    match overall with
    | .bullish => "bullish with positive market sentiment"
    | .bearish => "bearish with cautious market sentiment"
    | .neutral => "neutral with mixed market signals"
  let parts :=
    ["Market sentiment is " ++ desc ++ ".",
     "Analyzed " ++ toString validCount ++ " relevant news items."] ++
    (if noiseCount > 0 then
      ["Filtered " ++ toString noiseCount ++ " low-impact noise items."] else []) ++
    (if manipulationCount > 0 then
      ["Flagged " ++ toString manipulationCount ++ " items for potential manipulation."]
     else [])
  joinSpace parts

/-- The content-hash input `"<sentiment>:<kp1>:<kp2>:..."` built by
`generate_briefing`. -/
def hashContent (overall : Sentiment) (key_points : List String) : String :=
  overall.value ++ ":" ++ joinColon key_points

/-- The content fingerprint of a (sentiment, key points) pair:
`hashlib.sha256(hash_content.encode()).hexdigest()`. -/
def contentHashOf (overall : Sentiment) (key_points : List String) : String :=
  sha256hexOfString (hashContent overall key_points)

/-- `MacroeconomicAgent.update_release_schedule`: upsert every fetched
indicator whose release time is in the future as a fresh
`UpcomingRelease` (whose `notified` field is its default, false). -/
def update_release_schedule (st : Storage) (now : Int)
    (fetchedIndicators : List EconomicIndicator) : Storage :=
  fetchedIndicators.foldl
    (fun st ind =>
      if ind.release_time > now then save_upcoming_release st ⟨ind, false⟩ else st)
    st

/-- `MacroeconomicAgent.generate_briefing`: classify the fetched news,
aggregate, compose the briefing and persist it (`sent = false`).  The
strftime date in the daily title is abstracted to the numeric timestamp. -/
def generate_briefing (A : Analyzer) (st : Storage) (now : Int)
    (fetchedNews : List NewsItem) (briefing_type : String)
    (trigger : Option EconomicIndicator) (freshId : String) :
    Storage × SentimentBriefing :=
  let news_items := fetchedNews.map (process_item A)
  let agg := aggregate_sentiment A news_items
  let upcoming := get_upcoming_releases st now 168 true
  let indicators0 := upcoming.map (fun r => r.indicator)
  let indicators :=
    match trigger with
    | some t => t :: indicators0.filter (fun i => i.id ≠ t.id)
    | none => indicators0
  let title :=
    if briefing_type = "daily" then "Daily Macro Briefing - " ++ toString now
    else
      "High-Impact Alert: " ++
        (match trigger with | some t => t.name | none => "Economic")
  let key_points := generate_key_points news_items
  let summary := generate_summary news_items agg.2
  let content_hash := contentHashOf agg.2 key_points
  let b : SentimentBriefing :=
    { id := freshId, created_at := now, briefing_type := briefing_type,
      title := title, summary := summary, overall_sentiment := agg.2,
      key_points := key_points, news_items := news_items.take 10,
      indicators := indicators.take 5, content_hash := content_hash,
      sent := false, sent_at := none }
  (save_briefing st b, b)

/-- One iteration of `send_briefing`'s notifier loop: log the attempt
(with the error text when the channel raised) and accumulate whether any
channel has succeeded. -/
def sendAttemptStep (b : SentimentBriefing) (now : Int)
    (acc : Storage × Bool) (ch : ChannelAttempt) : Storage × Bool :=
  match ch.outcome with
  | .ok success =>
    (log_notification acc.1 b.id now ch.channel_name success none,
     acc.2 || success)
  | .err e =>
    (log_notification acc.1 b.id now ch.channel_name false (some e), acc.2)

/-- `MacroeconomicAgent.send_briefing`: gate on duplicate content (24h
lookback) and on the notification rate limit, then dispatch through every
channel, log each attempt, and mark the briefing sent when at least one
channel succeeded. -/
def send_briefing (st : Storage) (now : Int) (minIntervalMinutes : Int)
    (channels : List ChannelAttempt) (b : SentimentBriefing) : Storage × Bool :=
  if is_duplicate st b.content_hash now 24 then (st, false)
  else if !can_send_notification st now minIntervalMinutes then (st, false)
  else
    let r := channels.foldl (sendAttemptStep b now) (st, false)
    if r.2 then (mark_briefing_sent r.1 b.id now, true) else (r.1, false)

/-- The body of `check_high_impact_releases`' loop over due releases: for
a not-yet-notified release, generate the alert briefing, attempt the
send, and mark the release notified whatever the send returned. -/
def highImpactStep (A : Analyzer) (now : Int) (fetchedNews : List NewsItem)
    (channels : List ChannelAttempt) (minIntervalMinutes : Int)
    (freshId : Nat → String) (acc : Storage × List SentimentBriefing)
    (release : UpcomingRelease) : Storage × List SentimentBriefing :=
  if !release.notified then
    let g := generate_briefing A acc.1 now fetchedNews "high_impact"
      (some release.indicator) (freshId acc.2.length)
    let s := send_briefing g.1 now minIntervalMinutes channels g.2
    (mark_release_notified s.1 release.indicator.id, acc.2 ++ [g.2])
  else acc

/-- `MacroeconomicAgent.check_high_impact_releases`: refresh the schedule,
then for every due (≤ 1 hour ahead) high-impact release not yet notified,
generate a high-impact briefing, attempt to send it, and mark the release
notified (unconditionally).  `freshId` supplies the uuid of the k-th
generated briefing. -/
def check_high_impact_releases (A : Analyzer) (st : Storage) (now : Int)
    (fetchedIndicators : List EconomicIndicator) (fetchedNews : List NewsItem)
    (channels : List ChannelAttempt) (minIntervalMinutes : Int)
    (freshId : Nat → String) : Storage × List SentimentBriefing :=
  let st1 := update_release_schedule st now fetchedIndicators
  let upcoming := get_upcoming_releases st1 now 1 true
  upcoming.foldl
    (highImpactStep A now fetchedNews channels minIntervalMinutes freshId)
    (st1, [])

/-! ## Concrete instances used by witnesses and counterexamples -/

/-- An analyzer with the default configuration (threshold 0.1, default
keyword lists) and a scorer that maps every text to polarity 0. -/
def A0 : Analyzer :=
  ⟨mkRat 1 10, defaultNoiseKeywords, defaultManipulationKeywords, fun _ => 0⟩

/-- A short item: six-character body. -/
def itemShort : NewsItem :=
  { id := "i1", title := "Calm markets persist", content := "Short.",
    source := "wire", published_at := 0 }

/-- A high-impact item with polarity +0.3. -/
def itemHighPos : NewsItem :=
  { id := "h1", title := "up", content := "c", source := "wire",
    published_at := 0, impact_level := .high,
    raw_sentiment_score := mkRat 3 10 }

/-- A low-impact item with polarity -0.3. -/
def itemLowNeg : NewsItem :=
  { id := "l1", title := "down", content := "c", source := "wire",
    published_at := 0, impact_level := .low,
    raw_sentiment_score := -(mkRat 3 10) }

/-! ## C6: noise rules -/

/-- The lowered `title + " " + content` text `is_noise`/`is_manipulation`
work on. -/
def combinedLower (item : NewsItem) : String :=
  lowerStr (item.title ++ " " ++ item.content)

/-- `is_noise` as one boolean disjunction of its three rules. -/
lemma is_noise_eq (A : Analyzer) (item : NewsItem) :
    is_noise A item =
      (decide (item.content.length < 50) ||
        A.noiseKeywords.any (fun kw => strContains (combinedLower item) kw) ||
        decide (countCh '!' (combinedLower item) > 3) ||
        decide (countCh '?' (combinedLower item) > 3)) := by
  unfold is_noise combinedLower
  by_cases h1 : item.content.length < 50
  · simp [h1]
  · by_cases h2 : (A.noiseKeywords.any fun kw =>
        strContains (lowerStr (item.title ++ " " ++ item.content)) kw) = true
    · simp [h1, h2]
    · by_cases h3 : 3 < countCh '!' (lowerStr (item.title ++ " " ++ item.content))
      · simp [h1, h2, h3]
      · by_cases h4 : 3 < countCh '?' (lowerStr (item.title ++ " " ++ item.content))
        · simp [h1, h2, h3, h4]
        · simp [h1, h2, h3, h4]

/-- C6: an item whose body is shorter than 50 characters is always noise,
and `is_noise` holds exactly when one of the three noise rules does:
short body, a configured noise keyword inside the lowercased title+body,
or more than three `!` or more than three `?` in that text. -/
theorem C6_noise_rules (A : Analyzer) (item : NewsItem) :
    (item.content.length < 50 → is_noise A item = true) ∧
    (is_noise A item = true ↔
      (item.content.length < 50 ∨
        (∃ kw ∈ A.noiseKeywords, strContains (combinedLower item) kw = true) ∨
        countCh '!' (combinedLower item) > 3 ∨
        countCh '?' (combinedLower item) > 3)) := by
  constructor
  · intro h
    simp [is_noise_eq, h]
  · simp [is_noise_eq, List.any_eq_true, or_assoc]

/-- C6 witness: the item with body `"Short."` (length 6 < 50) is noise. -/
theorem C6_noise_rules_witness : is_noise A0 itemShort = true :=
  (C6_noise_rules A0 itemShort).1 (by decide)

/-! ## C4: impact weighting -/

/-- Sum of impact-weighted polarity scores of a list of items. -/
def weightedScoreSum (l : List NewsItem) : Rat :=
  (l.map (fun i => i.raw_sentiment_score * impactWeight i.impact_level.value)).sum

/-- Sum of impact weights of a list of items. -/
def weightSum (l : List NewsItem) : Rat :=
  (l.map (fun i => impactWeight i.impact_level.value)).sum

/-- The aggregation fold accumulates exactly the two sums. -/
lemma agg_foldl (l : List NewsItem) (p : Rat × Rat) :
    l.foldl
      (fun acc i =>
        let w := impactWeight i.impact_level.value
        (acc.1 + i.raw_sentiment_score * w, acc.2 + w)) p =
      (p.1 + weightedScoreSum l, p.2 + weightSum l) := by
  induction l generalizing p with
  | nil => simp [weightedScoreSum, weightSum]
  | cons x xs ih =>
    simp only [List.foldl_cons, ih, weightedScoreSum, weightSum, List.map_cons,
      List.sum_cons]
    exact Prod.ext (by ring) (by ring)

/-- The first component of `aggregate_sentiment` on a non-empty filtered
batch is the weighted mean. -/
lemma aggregate_sentiment_fst (A : Analyzer) (items : List NewsItem)
    (h : items.filter (fun i => !i.is_noise && !i.is_manipulation) ≠ []) :
    (aggregate_sentiment A items).1 =
      weightedScoreSum (items.filter (fun i => !i.is_noise && !i.is_manipulation)) /
        weightSum (items.filter (fun i => !i.is_noise && !i.is_manipulation)) := by
  unfold aggregate_sentiment
  simp only [agg_foldl, zero_add]
  rw [if_neg (by simpa [List.isEmpty_iff] using h)]
  by_cases hw :
      weightSum (items.filter (fun i => !i.is_noise && !i.is_manipulation)) = 0
  · simp [hw]
  · simp only [if_neg hw]
    split_ifs <;> rfl

/-- C4: the aggregation weights are high = 3, medium = 1.5, low = 1 with
every other level defaulting to 1; on a non-empty filtered batch the
returned score is the weighted mean of polarity scores; and the batch of
one high-impact +0.3 item and one low-impact -0.3 item aggregates to a
strictly positive score. -/
theorem C4_impact_weighting :
    (impactWeight "high" = 3 ∧ impactWeight "medium" = 3 / 2 ∧
      impactWeight "low" = 1 ∧
      ∀ s : String, s ∉ (["high", "medium", "low"] : List String) →
        impactWeight s = 1) ∧
    (∀ (A : Analyzer) (items : List NewsItem),
      items.filter (fun i => !i.is_noise && !i.is_manipulation) ≠ [] →
      (aggregate_sentiment A items).1 =
        weightedScoreSum (items.filter (fun i => !i.is_noise && !i.is_manipulation)) /
          weightSum (items.filter (fun i => !i.is_noise && !i.is_manipulation))) ∧
    (aggregate_sentiment A0 [itemHighPos, itemLowNeg]).1 > 0 := by
  refine ⟨⟨rfl, ?_, rfl, ?_⟩, aggregate_sentiment_fst, ?_⟩
  · unfold impactWeight
    rw [if_neg (by decide), if_pos rfl]
    norm_num [Rat.mkRat_eq_div]
  · intro s hs
    obtain ⟨h1, h2, h3⟩ : s ≠ "high" ∧ s ≠ "medium" ∧ s ≠ "low" := by
      simpa [not_or] using hs
    unfold impactWeight
    rw [if_neg h1, if_neg h2, if_neg h3]
  · have hf : ([itemHighPos, itemLowNeg].filter fun i =>
        !i.is_noise && !i.is_manipulation) = [itemHighPos, itemLowNeg] := rfl
    rw [aggregate_sentiment_fst A0 [itemHighPos, itemLowNeg] (by simp [hf])]
    rw [hf]
    unfold weightedScoreSum weightSum
    simp only [List.map_cons, List.map_nil, List.sum_cons, List.sum_nil,
      itemHighPos, itemLowNeg, ImpactLevel.value, impactWeight]
    norm_num [Rat.mkRat_eq_div, (by decide : ¬("low" : String) = "high"),
      (by decide : ¬("low" : String) = "medium")]

/-- C4 witness: an unrecognized impact string weighs 1, and the example
batch's weighted mean is (3·0.3 + 1·(-0.3))/4 = 0.15. -/
theorem C4_impact_weighting_witness :
    impactWeight "urgent" = 1 ∧
    (aggregate_sentiment A0 [itemHighPos, itemLowNeg]).1 =
      weightedScoreSum [itemHighPos, itemLowNeg] / weightSum [itemHighPos, itemLowNeg] :=
  ⟨C4_impact_weighting.1.2.2.2 "urgent" (by decide),
    C4_impact_weighting.2.1 A0 [itemHighPos, itemLowNeg] (by decide)⟩

/-! ## C9: empty aggregation -/

/-- C9: whenever the filtered batch is empty — in particular for the empty
batch — and whenever the total weight is zero, `aggregate_sentiment`
returns exactly (0, neutral). -/
theorem C9_empty_aggregation (A : Analyzer) (items : List NewsItem) :
    (items.filter (fun i => !i.is_noise && !i.is_manipulation) = [] →
      aggregate_sentiment A items = (0, .neutral)) ∧
    (weightSum (items.filter (fun i => !i.is_noise && !i.is_manipulation)) = 0 →
      aggregate_sentiment A items = (0, .neutral)) ∧
    aggregate_sentiment A [] = (0, .neutral) := by
  refine ⟨fun h => ?_, fun h => ?_, by rfl⟩
  · unfold aggregate_sentiment
    simp [h]
  · unfold aggregate_sentiment
    by_cases he : items.filter (fun i => !i.is_noise && !i.is_manipulation) = []
    · simp [he]
    · rw [if_neg (by simpa [List.isEmpty_iff] using he)]
      simp only [agg_foldl, zero_add]
      simp [h]

/-- C9 witness: the empty batch (whose filtered set is empty and whose
total weight is zero) aggregates to (0, neutral). -/
theorem C9_empty_aggregation_witness :
    aggregate_sentiment A0 [] = (0, .neutral) :=
  (C9_empty_aggregation A0 []).1 (by decide)

/-! ## C8: mark_release_notified is a defensive no-op / idempotent -/

/-- C8: `mark_release_notified` with an id matching no stored release
leaves the store unchanged (and, being a total function, raises nothing);
a second call on the same id is absorbed; and after the call every row
with that id is in the notified state. -/
theorem C8_mark_notified_idempotent (st : Storage) (iid : String) :
    ((∀ r ∈ st.releases, r.id ≠ iid) → mark_release_notified st iid = st) ∧
    (mark_release_notified (mark_release_notified st iid) iid =
      mark_release_notified st iid) ∧
    (∀ r ∈ (mark_release_notified st iid).releases, r.id = iid →
      r.notified = true) := by
  refine ⟨fun h => ?_, ?_, ?_⟩
  · unfold mark_release_notified
    have h1 : st.releases.map
        (fun r => if r.id = iid then { r with notified := true } else r) =
        st.releases.map id :=
      List.map_congr_left (fun r hr => by simp [h r hr])
    have h2 : st.releases.map
        (fun r => if r.id = iid then { r with notified := true } else r) =
        st.releases := by rw [h1, List.map_id]
    rw [h2]
  · unfold mark_release_notified
    simp only [List.map_map]
    have hm : st.releases.map
        ((fun r => if r.id = iid then { r with notified := true } else r) ∘
          (fun r => if r.id = iid then { r with notified := true } else r)) =
        st.releases.map
          (fun r => if r.id = iid then { r with notified := true } else r) :=
      List.map_congr_left (fun r _ => by by_cases h : r.id = iid <;> simp [h])
    rw [hm]
  · intro r hr hid
    unfold mark_release_notified at hr
    rcases List.mem_map.1 hr with ⟨x, _, rfl⟩
    by_cases h : x.id = iid
    · simp [h]
    · simp only [if_neg h] at hid ⊢
      exact absurd hid h

/-- An upcoming CPI release (in the future relative to time 0). -/
def indCpi : EconomicIndicator :=
  { id := "cpi", name := "CPI", country := "US", release_time := 100,
    impact_level := .high, forecast_value := some "3.0%" }

/-- A store holding the CPI release already notified. -/
def stNotified : Storage := save_upcoming_release emptyStorage ⟨indCpi, true⟩

/-- The same store after the CPI indicator is re-ingested (still before
its release time) by `update_release_schedule`. -/
def stReingested : Storage := update_release_schedule stNotified 0 [indCpi]

/-- C8 witness: marking an id unknown to the notified-CPI store changes
nothing, and a second mark on "cpi" equals the first. -/
theorem C8_mark_notified_idempotent_witness :
    mark_release_notified stNotified "nfp" = stNotified ∧
    mark_release_notified (mark_release_notified stNotified "cpi") "cpi" =
      mark_release_notified stNotified "cpi" :=
  ⟨(C8_mark_notified_idempotent stNotified "nfp").1 (by decide),
    (C8_mark_notified_idempotent stNotified "cpi").2.1⟩

/-! ## C1: re-ingestion resets the notified flag (code bug) -/

/-- C1: evaluating the code on a tracked release with `notified = true`
and a release time still in the future: re-ingesting the same indicator
(`update_release_schedule`, which builds a fresh `UpcomingRelease` whose
`notified` defaults to false, followed by `save_upcoming_release`'s
INSERT OR REPLACE) overwrites the stored row and reverts `notified` to
false, contradicting the claim that `notified` never reverts. -/
theorem C1_reingest_resets_notified :
    (0 : Int) < indCpi.release_time ∧
    stNotified.releases.map (fun r => (r.id, r.notified)) = [("cpi", true)] ∧
    stReingested.releases.map (fun r => (r.id, r.notified)) = [("cpi", false)] := by
  decide

/-! ## C7: manipulation rules -/

/-- Number of configured manipulation keywords occurring in the lowered
title+body (each list entry counted once). -/
def manipulationKeywordCount (A : Analyzer) (item : NewsItem) : Nat :=
  (A.manipulationKeywords.filter (fun kw => strContains (combinedLower item) kw)).length

/-- `is_manipulation` as one boolean disjunction of its three rules. -/
lemma is_manipulation_eq (A : Analyzer) (item : NewsItem) :
    is_manipulation A item =
      (decide (2 ≤ manipulationKeywordCount A item) ||
        decide (2 < capsMatchCount (item.title ++ " " ++ item.content)) ||
        decide (mkRat 8 10 < ratAbs (analyze_sentiment A (combinedLower item)).1)) := by
  unfold is_manipulation manipulationKeywordCount combinedLower
  by_cases h1 : 2 ≤
      (A.manipulationKeywords.filter (fun kw =>
        strContains (lowerStr (item.title ++ " " ++ item.content)) kw)).length
  · simp [h1]
  · by_cases h2 : 2 < capsMatchCount (item.title ++ " " ++ item.content)
    · simp [h1, h2]
    · by_cases h3 : mkRat 8 10 <
          ratAbs (analyze_sentiment A (lowerStr (item.title ++ " " ++ item.content))).1
      · simp [h1, h2, h3]
      · simp [h1, h2, h3]

/-- C7 (amended): an item whose lowered title+body contains at least two
configured manipulation keywords is always flagged, and `is_manipulation`
holds exactly when one of the three rules does — where the caps rule
counts the regex matches of `\b[A-Z]{4,}\b` (all-caps words of length at
least 4 delimited by word boundaries), not arbitrary uppercase runs.
`ratAbs` is the absolute value and `mkRat 8 10` the 0.8 threshold. -/
theorem C7_manipulation_rules (A : Analyzer) (item : NewsItem) :
    (2 ≤ manipulationKeywordCount A item → is_manipulation A item = true) ∧
    (is_manipulation A item = true ↔
      (2 ≤ manipulationKeywordCount A item ∨
        2 < capsMatchCount (item.title ++ " " ++ item.content) ∨
        |(analyze_sentiment A (combinedLower item)).1| > mkRat 8 10)) ∧
    (∀ q : Rat, ratAbs q = |q|) ∧ mkRat 8 10 = 8 / 10 := by
  have habs : ∀ q : Rat, ratAbs q = |q| := by
    intro q
    unfold ratAbs
    by_cases h : q < 0
    · rw [if_pos h, abs_of_neg h]
    · rw [if_neg h, abs_of_nonneg (not_lt.mp h)]
  refine ⟨fun h => ?_, ?_, habs, by norm_num [Rat.mkRat_eq_div]⟩
  · simp [is_manipulation_eq, h]
  · rw [is_manipulation_eq]
    simp [habs, or_assoc]

/-- An item containing both "crash" and "guaranteed". -/
def itemKw : NewsItem :=
  { id := "k1", title := "Crash guaranteed",
    content := "Analysts say a crash is guaranteed this quarter.",
    source := "wire", published_at := 0 }

/-- C7 witness: the item containing "crash" and "guaranteed" (two
configured manipulation keywords) is flagged. -/
theorem C7_manipulation_rules_witness : is_manipulation A0 itemKw = true :=
  (C7_manipulation_rules A0 itemKw).1 (by decide)

/-- An item with three uppercase runs of length 4 embedded in longer
words ("AAAAx" etc.), which the regex `\b[A-Z]{4,}\b` does not match. -/
def itemCaps : NewsItem :=
  { id := "c1", title := "Flat day", content := "AAAAx BBBBx CCCCx",
    source := "wire", published_at := 0 }

/-- C7 counterexample: with the claim's reading of the caps rule —
"more than 2 distinct runs of 4 or more consecutive uppercase letters" —
the equivalence fails: this item has three such runs (and no keywords,
polarity 0), yet `is_manipulation` is false, because the code's regex
`\b[A-Z]{4,}\b` requires word boundaries and matches nothing here. -/
theorem C7_manipulation_rules_counterexample :
    ¬ (is_manipulation A0 itemCaps = true ↔
      (2 ≤ manipulationKeywordCount A0 itemCaps ∨
        2 < capsRunCount (itemCaps.title ++ " " ++ itemCaps.content) ∨
        ratAbs (analyze_sentiment A0 (combinedLower itemCaps)).1 > mkRat 8 10)) := by
  decide

/-! ## C2 and C3: the notification gate and the sent flag -/

/-- The audit row `send_briefing` logs for one channel attempt. -/
def logRowOf (b : SentimentBriefing) (now : Int) (ch : ChannelAttempt) : LogRow :=
  match ch.outcome with
  | .ok success => ⟨b.id, now, ch.channel_name, success, none⟩
  | .err e => ⟨b.id, now, ch.channel_name, false, some e⟩

/-- The notifier loop only appends audit rows to the store: briefings and
releases are untouched. -/
lemma sendLoop_state (b : SentimentBriefing) (now : Int) :
    ∀ (channels : List ChannelAttempt) (st : Storage) (acc : Bool),
      (channels.foldl (sendAttemptStep b now) (st, acc)).1 =
        { st with notification_log :=
            st.notification_log ++ channels.map (logRowOf b now) } := by
  intro channels
  induction channels with
  | nil => intro st acc; simp
  | cons ch t ih =>
    intro st acc
    cases hc : ch.outcome with
    | ok success =>
      simp only [List.foldl_cons, sendAttemptStep, hc, ih, log_notification,
        List.map_cons, logRowOf]
      simp
    | err e =>
      simp only [List.foldl_cons, sendAttemptStep, hc, ih, log_notification,
        List.map_cons, logRowOf]
      simp

/-- The notifier loop's success flag is true exactly when the accumulator
was or some channel returned true. -/
lemma sendLoop_flag (b : SentimentBriefing) (now : Int) :
    ∀ (channels : List ChannelAttempt) (st : Storage) (acc : Bool),
      (channels.foldl (sendAttemptStep b now) (st, acc)).2 =
        (acc || channels.any (fun ch => decide (ch.outcome = .ok true))) := by
  intro channels
  induction channels with
  | nil => intro st acc; simp
  | cons ch t ih =>
    intro st acc
    cases hc : ch.outcome with
    | ok success =>
      simp only [List.foldl_cons, sendAttemptStep, hc, ih, List.any_cons]
      cases success <;> cases acc <;> simp
    | err e =>
      simp only [List.foldl_cons, sendAttemptStep, hc, ih, List.any_cons]
      simp

/-- C2: `is_duplicate` holds exactly when a successfully sent briefing
with the same fingerprint was created inside the 24-hour lookback;
`can_send_notification` holds exactly when the most recent sent timestamp
is at least `minInterval` minutes old; `send_briefing` returns false with
the store untouched when either gate fails; its result can be true only
when both gates pass; and when both pass every channel is dispatched
(one audit row per channel). -/
theorem C2_gate_rules (st : Storage) (now minInterval : Int)
    (channels : List ChannelAttempt) (b : SentimentBriefing) :
    (is_duplicate st b.content_hash now 24 = true ↔
      ∃ r ∈ st.briefings, r.content_hash = b.content_hash ∧ r.sent = true ∧
        r.created_at > now - 24 * 60) ∧
    (can_send_notification st now minInterval = true ↔
      ∀ t, get_last_notification_time st = some t → now - t ≥ minInterval) ∧
    (is_duplicate st b.content_hash now 24 = true →
      send_briefing st now minInterval channels b = (st, false)) ∧
    (can_send_notification st now minInterval = false →
      send_briefing st now minInterval channels b = (st, false)) ∧
    ((send_briefing st now minInterval channels b).2 = true →
      is_duplicate st b.content_hash now 24 = false ∧
        can_send_notification st now minInterval = true) ∧
    (is_duplicate st b.content_hash now 24 = false →
      can_send_notification st now minInterval = true →
      (send_briefing st now minInterval channels b).1.notification_log =
        st.notification_log ++ channels.map (logRowOf b now)) := by
  have hdup : is_duplicate st b.content_hash now 24 = true ↔
      ∃ r ∈ st.briefings, r.content_hash = b.content_hash ∧ r.sent = true ∧
        r.created_at > now - 24 * 60 := by
    unfold is_duplicate
    simp [List.any_eq_true, and_assoc]
  have hcan : can_send_notification st now minInterval = true ↔
      ∀ t, get_last_notification_time st = some t → now - t ≥ minInterval := by
    unfold can_send_notification
    cases h : get_last_notification_time st with
    | none => simp
    | some t => simp
  refine ⟨hdup, hcan, fun h => ?_, fun h => ?_, ?_, fun h1 h2 => ?_⟩
  · unfold send_briefing
    rw [if_pos h]
  · unfold send_briefing
    by_cases hd : is_duplicate st b.content_hash now 24 = true
    · rw [if_pos hd]
    · rw [if_neg hd, if_pos (by simp [h])]
  · intro h
    constructor
    · by_contra hd
      rw [Bool.not_eq_false] at hd
      unfold send_briefing at h
      rw [if_pos hd] at h
      exact Bool.false_ne_true h
    · by_contra hc
      rw [Bool.not_eq_true] at hc
      unfold send_briefing at h
      by_cases hd : is_duplicate st b.content_hash now 24 = true
      · rw [if_pos hd] at h
        exact Bool.false_ne_true h
      · rw [if_neg hd, if_pos (by simp [hc])] at h
        exact Bool.false_ne_true h
  · unfold send_briefing
    rw [if_neg (by simp [h1]), if_neg (by simp [h2])]
    dsimp only
    split_ifs with hs
    · simp [mark_briefing_sent, sendLoop_state]
    · simp [sendLoop_state]

/-- A briefing already sent, with fingerprint "h1", created at time 1000. -/
def bDup : SentimentBriefing :=
  { id := "bdup", created_at := 1000, briefing_type := "daily", title := "T",
    summary := "S", overall_sentiment := .neutral, content_hash := "h1",
    sent := true, sent_at := some 1000 }

/-- A store holding the sent briefing `bDup`. -/
def stDup : Storage := save_briefing emptyStorage bDup

/-- A fresh briefing with the same fingerprint ten minutes later. -/
def bNew : SentimentBriefing :=
  { id := "bnew", created_at := 1010, briefing_type := "daily", title := "T2",
    summary := "S2", overall_sentiment := .neutral, content_hash := "h1" }

/-- C2 witness: the duplicate-fingerprint briefing is rejected — store
unchanged, no dispatch, result false. -/
theorem C2_gate_rules_witness :
    send_briefing stDup 1010 30 [⟨"email", .ok true⟩] bNew = (stDup, false) :=
  (C2_gate_rules stDup 1010 30 [⟨"email", .ok true⟩] bNew).2.2.1 (by decide)

/-- C3: once both gates pass, `send_briefing` reports success exactly when
some channel returned true; on success the briefings table equals one
application of `mark_briefing_sent` at the current time (`sent = true`,
`sent_at = now`, exactly once, however many channels succeeded); when
every channel fails or raises, the briefings table — and so the sent
flag — is unchanged. -/
theorem C3_sent_flag (st : Storage) (now minInterval : Int)
    (channels : List ChannelAttempt) (b : SentimentBriefing)
    (hdup : is_duplicate st b.content_hash now 24 = false)
    (hrate : can_send_notification st now minInterval = true) :
    ((send_briefing st now minInterval channels b).2 = true ↔
      ∃ ch ∈ channels, ch.outcome = SendOutcome.ok true) ∧
    ((∃ ch ∈ channels, ch.outcome = SendOutcome.ok true) →
      (send_briefing st now minInterval channels b).1.briefings =
        (mark_briefing_sent st b.id now).briefings) ∧
    ((∀ ch ∈ channels, ch.outcome ≠ SendOutcome.ok true) →
      (send_briefing st now minInterval channels b).1.briefings = st.briefings) := by
  unfold send_briefing
  rw [if_neg (by simp [hdup]), if_neg (by simp [hrate])]
  simp only [sendLoop_flag, Bool.false_or]
  refine ⟨?_, fun h => ?_, fun h => ?_⟩
  · split_ifs with hs
    · simpa [List.any_eq_true] using hs
    · simp only [Bool.false_eq_true, false_iff]
      intro hex
      exact hs (by simpa [List.any_eq_true] using hex)
  · rw [if_pos (by simpa [List.any_eq_true] using h)]
    simp [mark_briefing_sent, sendLoop_state]
  · have hall : channels.any (fun ch => decide (ch.outcome = .ok true)) = false := by
      simp only [List.any_eq_false, decide_eq_true_eq]
      exact h
    rw [if_neg (by simp [hall])]
    simp [sendLoop_state]

/-- An unsent briefing with fingerprint "ha". -/
def bA : SentimentBriefing :=
  { id := "ba", created_at := 1000, briefing_type := "daily", title := "T",
    summary := "S", overall_sentiment := .neutral, content_hash := "ha" }

/-- A store holding the unsent briefing `bA`. -/
def stA : Storage := save_briefing emptyStorage bA

/-- C3 witness: with one succeeding channel, the briefings table after
`send_briefing` equals one `mark_briefing_sent` application. -/
theorem C3_sent_flag_witness :
    (send_briefing stA 1000 30 [⟨"email", .ok true⟩] bA).1.briefings =
      (mark_briefing_sent stA "ba" 1000).briefings :=
  (C3_sent_flag stA 1000 30 [⟨"email", .ok true⟩] bA (by decide) (by decide)).2.1
    ⟨⟨"email", .ok true⟩, by decide, rfl⟩

/-! ## C5: the content fingerprint -/

/-- Appending on the right cancels in strings. -/
lemma str_app_right_cancel (a b s : String) (h : a ++ s = b ++ s) : a = b := by
  apply String.ext
  have hd := congrArg String.data h
  simp only [String.data_append] at hd
  exact List.append_cancel_right hd

/-- Appending on the left cancels in strings. -/
lemma str_app_left_cancel (s a b : String) (h : s ++ a = s ++ b) : a = b := by
  apply String.ext
  have hd := congrArg String.data h
  simp only [String.data_append] at hd
  exact List.append_cancel_left hd

/-- `joinColon` on a cons with a non-empty tail. -/
lemma joinColon_cons (y : String) (t : List String) (h : t ≠ []) :
    joinColon (y :: t) = y ++ ":" ++ joinColon t := by
  cases t with
  | nil => exact absurd rfl h
  | cons z t' => rfl

/-- Changing exactly one element of the key-point list changes its
colon-join. -/
lemma joinColon_set_ne :
    ∀ (l : List String) (i : Nat) (x : String) (h : i < l.length),
      x ≠ l.get ⟨i, h⟩ → joinColon (l.set i x) ≠ joinColon l := by
  intro l
  induction l with
  | nil => intro i x h; exact absurd h (by simp)
  | cons y t ih =>
    intro i x h hx
    cases i with
    | zero =>
      cases t with
      | nil =>
        simp only [List.set]
        simpa [joinColon] using hx
      | cons z t' =>
        intro he
        apply hx
        simp only [List.set, joinColon] at he
        have h1 : x ++ ":" = y ++ ":" := str_app_right_cancel _ _ _ he
        have h2 : x = y := str_app_right_cancel _ _ _ h1
        simpa [List.get] using h2
    | succ j =>
      have hj : j < t.length := by simpa using h
      cases t with
      | nil => exact absurd hj (by simp)
      | cons z t' =>
        intro he
        refine ih j x hj (by simpa [List.get] using hx) ?_
        have hne : (z :: t').set j x ≠ [] := by cases j <;> simp [List.set]
        rw [List.set, joinColon_cons y _ hne, joinColon_cons y _ (by simp)] at he
        exact str_app_left_cancel _ _ _ he

/-- Changing one key point changes the fingerprint's hash input. -/
lemma hashContent_set_ne (s : Sentiment) (kps : List String) (i : Nat)
    (x : String) (h : i < kps.length) (hx : x ≠ kps.get ⟨i, h⟩) :
    hashContent s (kps.set i x) ≠ hashContent s kps := by
  intro he
  unfold hashContent at he
  exact joinColon_set_ne kps i x h hx (str_app_left_cancel _ _ _ he)

/-- A generated briefing's stored fingerprint is the fingerprint of its
own sentiment and key points. -/
lemma generate_briefing_hash (A : Analyzer) (st : Storage) (now : Int)
    (fetchedNews : List NewsItem) (btype : String)
    (trigger : Option EconomicIndicator) (freshId : String) :
    ((generate_briefing A st now fetchedNews btype trigger freshId).2).content_hash =
      contentHashOf
        ((generate_briefing A st now fetchedNews btype trigger freshId).2).overall_sentiment
        ((generate_briefing A st now fetchedNews btype trigger freshId).2).key_points := rfl

/-- C5 (amended): any two generated briefings with the same sentiment and
the same key points have equal fingerprints, whatever their analyzers,
stores, timestamps, ids, item sets or triggers; the fingerprint is the
SHA-256 hex digest of `"<sentiment>:<kp1>:<kp2>:..."`; changing any one
key point changes that hash input string; and a concrete changed key
point changes the full SHA-256 fingerprint.  (Universally, a fixed-width
digest cannot separate all distinct inputs — see the counterexample.) -/
theorem C5_fingerprint (A1 : Analyzer) (st1 : Storage) (now1 : Int)
    (news1 : List NewsItem) (type1 : String) (trig1 : Option EconomicIndicator)
    (id1 : String) (A2 : Analyzer) (st2 : Storage) (now2 : Int)
    (news2 : List NewsItem) (type2 : String) (trig2 : Option EconomicIndicator)
    (id2 : String) :
    (((generate_briefing A1 st1 now1 news1 type1 trig1 id1).2).overall_sentiment =
        ((generate_briefing A2 st2 now2 news2 type2 trig2 id2).2).overall_sentiment →
      ((generate_briefing A1 st1 now1 news1 type1 trig1 id1).2).key_points =
        ((generate_briefing A2 st2 now2 news2 type2 trig2 id2).2).key_points →
      ((generate_briefing A1 st1 now1 news1 type1 trig1 id1).2).content_hash =
        ((generate_briefing A2 st2 now2 news2 type2 trig2 id2).2).content_hash) ∧
    (∀ (s : Sentiment) (kps : List String),
      contentHashOf s kps = sha256hexOfString (s.value ++ ":" ++ joinColon kps)) ∧
    (∀ (s : Sentiment) (kps : List String) (i : Nat) (x : String)
      (h : i < kps.length), x ≠ kps.get ⟨i, h⟩ →
        hashContent s (kps.set i x) ≠ hashContent s kps) ∧
    contentHashOf .neutral ["a", "b"] ≠ contentHashOf .neutral ["a", "c"] := by
  refine ⟨fun hs hk => ?_, fun s kps => rfl, hashContent_set_ne, by decide⟩
  rw [generate_briefing_hash A1 st1 now1 news1 type1 trig1 id1,
    generate_briefing_hash A2 st2 now2 news2 type2 trig2 id2, hs, hk]

/-- C5 witness: replacing the second key point of `["a", "b"]` by `"x"`
changes the hash input. -/
theorem C5_fingerprint_witness :
    hashContent .neutral (["a", "b"].set 1 "x") ≠ hashContent .neutral ["a", "b"] :=
  (C5_fingerprint A0 emptyStorage 0 [] "daily" none "u1" A0 emptyStorage 0 []
    "daily" none "u2").2.2.1 .neutral ["a", "b"] 1 "x" (by decide) (by decide)

/-- The digest state as one natural number below 2^256 (base 2^32). -/
def stateVal (s : Sha256State) : Nat :=
  ((((((s.a * 4294967296 + s.b) * 4294967296 + s.c) * 4294967296 + s.d) *
    4294967296 + s.e) * 4294967296 + s.f) * 4294967296 + s.g) * 4294967296 + s.h

/-- All eight state words fit in 32 bits. -/
def bounded32 (s : Sha256State) : Prop :=
  s.a < 4294967296 ∧ s.b < 4294967296 ∧ s.c < 4294967296 ∧ s.d < 4294967296 ∧
    s.e < 4294967296 ∧ s.f < 4294967296 ∧ s.g < 4294967296 ∧ s.h < 4294967296

/-- Chunk compression always produces 32-bit words. -/
lemma compressChunk_bounded (st : Sha256State) (c : List Nat) :
    bounded32 (compressChunk st c) := by
  unfold compressChunk bounded32 w32
  refine ⟨?_, ?_, ?_, ?_, ?_, ?_, ?_, ?_⟩ <;> exact Nat.mod_lt _ (by norm_num)

/-- Folding compression over at least one chunk gives 32-bit words. -/
lemma foldl_compress_bounded :
    ∀ (l : List (List Nat)) (st : Sha256State), l ≠ [] →
      bounded32 (l.foldl compressChunk st) := by
  intro l
  induction l with
  | nil => intro st h; exact absurd rfl h
  | cons c t ih =>
    intro st _
    cases t with
    | nil => simpa using compressChunk_bounded st c
    | cons d t' => simpa using ih (compressChunk st c) (by simp)

/-- Padding never yields the empty message. -/
lemma shaPad_ne_nil (m : List Nat) : shaPad m ≠ [] := by
  unfold shaPad
  simp

/-- A non-empty byte list has at least one chunk. -/
lemma chunks64_ne_nil (l : List Nat) (h : l ≠ []) : chunks64 l ≠ [] := by
  cases l with
  | nil => exact absurd rfl h
  | cons c cs =>
    unfold chunks64
    simp [chunks64Go]

/-- The final SHA-256 state consists of 32-bit words. -/
lemma sha256Final_bounded (msg : List Nat) : bounded32 (sha256Final msg) :=
  foldl_compress_bounded _ _ (chunks64_ne_nil _ (shaPad_ne_nil msg))

/-- `stateVal` of a bounded state is below 2^256. -/
lemma stateVal_lt (s : Sha256State) (h : bounded32 s) : stateVal s < 2 ^ 256 := by
  obtain ⟨h1, h2, h3, h4, h5, h6, h7, h8⟩ := h
  have hp : (2 : Nat) ^ 256 =
      115792089237316195423570985008687907853269984665640564039457584007913129639936 := by
    norm_num
  rw [hp]
  unfold stateVal
  omega

/-- `stateVal` is injective on bounded states. -/
lemma stateVal_inj (s t : Sha256State) (hs : bounded32 s) (ht : bounded32 t)
    (h : stateVal s = stateVal t) : s = t := by
  cases s with
  | mk a b c d e f g hh =>
    cases t with
    | mk a2 b2 c2 d2 e2 f2 g2 hh2 =>
      obtain ⟨p1, p2, p3, p4, p5, p6, p7, p8⟩ := hs
      obtain ⟨q1, q2, q3, q4, q5, q6, q7, q8⟩ := ht
      unfold stateVal at h
      simp only [Sha256State.mk.injEq]
      simp only at h p1 p2 p3 p4 p5 p6 p7 p8 q1 q2 q3 q4 q5 q6 q7 q8
      omega

/-- The string of `n` letters `a`. -/
def aStr (n : Nat) : String := ⟨List.replicate n 'a'⟩

/-- `aStr` is injective. -/
lemma aStr_inj (m n : Nat) (h : aStr m = aStr n) : m = n := by
  have := congrArg (fun s => s.data.length) h
  simpa [aStr] using this

/-- The digest value of the briefing fingerprint of the single key point
`aStr n`, as an element of the finite digest space. -/
def digestFin (n : Nat) : Fin (2 ^ 256) :=
  ⟨stateVal (sha256Final (utf8Bytes ("neutral:" ++ aStr n))),
    stateVal_lt _ (sha256Final_bounded _)⟩

/-- C5 counterexample: "changing any key point changes the fingerprint"
is false as a universal statement — the SHA-256 digest space is finite
while key points are unbounded, so by the pigeonhole principle two
different single key points (two different-length runs of `a`s) share a
fingerprint; replacing one by the other changes a key point but not the
fingerprint.  (No explicit collision is computable, matching SHA-256's
design; the existence is forced.) -/
theorem C5_fingerprint_counterexample :
    ∃ (kps : List String) (i : Nat) (x : String) (h : i < kps.length),
      x ≠ kps.get ⟨i, h⟩ ∧
        contentHashOf .neutral (kps.set i x) = contentHashOf .neutral kps := by
  obtain ⟨m, n, hmn, heq⟩ := Finite.exists_ne_map_eq_of_infinite digestFin
  have hstate : sha256Final (utf8Bytes ("neutral:" ++ aStr m)) =
      sha256Final (utf8Bytes ("neutral:" ++ aStr n)) :=
    stateVal_inj _ _ (sha256Final_bounded _) (sha256Final_bounded _)
      (congrArg Fin.val heq)
  have hhc : ∀ k : Nat, hashContent Sentiment.neutral [aStr k] = "neutral:" ++ aStr k := by
    intro k
    unfold hashContent joinColon Sentiment.value
    exact congrArg (fun p => p ++ aStr k) (by decide)
  have hdig : contentHashOf .neutral [aStr m] = contentHashOf .neutral [aStr n] := by
    unfold contentHashOf sha256hexOfString
    rw [hhc m, hhc n]
    exact congrArg (fun st => (⟨stateHexChars st⟩ : String)) hstate
  refine ⟨[aStr n], 0, aStr m, by simp, ?_, ?_⟩
  · intro hcon
    exact hmn (aStr_inj m n (by simpa [List.get] using hcon))
  · simpa [List.set] using hdig

/-! ## C10: unconditional mark_release_notified in the high-impact cycle -/

/-- "Every stored release row with id `x` is notified." -/
def relMarked (st : Storage) (x : String) : Prop :=
  ∀ row ∈ st.releases, row.id = x → row.notified = true

/-- `generate_briefing` only writes to the briefings table. -/
lemma generate_briefing_releases (A : Analyzer) (st : Storage) (now : Int)
    (fetchedNews : List NewsItem) (btype : String)
    (trigger : Option EconomicIndicator) (freshId : String) :
    ((generate_briefing A st now fetchedNews btype trigger freshId).1).releases =
      st.releases := rfl

/-- `send_briefing` never touches the releases table. -/
lemma send_briefing_releases (st : Storage) (now minInterval : Int)
    (channels : List ChannelAttempt) (b : SentimentBriefing) :
    ((send_briefing st now minInterval channels b).1).releases = st.releases := by
  unfold send_briefing
  by_cases h1 : is_duplicate st b.content_hash now 24 = true
  · rw [if_pos h1]
  · rw [if_neg h1]
    by_cases h2 : (!can_send_notification st now minInterval) = true
    · rw [if_pos h2]
    · rw [if_neg h2]
      dsimp only
      split_ifs with hs
      · simp [mark_briefing_sent, sendLoop_state]
      · simp [sendLoop_state]

/-- Marking a release establishes `relMarked` for its id. -/
lemma mark_establishes (st : Storage) (x : String) :
    relMarked (mark_release_notified st x) x := by
  intro row hrow hid
  unfold mark_release_notified at hrow
  rcases List.mem_map.1 hrow with ⟨y, _, rfl⟩
  by_cases h : y.id = x
  · simp [h]
  · simp only [if_neg h] at hid ⊢
    exact absurd hid h

/-- Marking any release preserves `relMarked` of any id. -/
lemma mark_preserves (st : Storage) (x y : String) (h : relMarked st x) :
    relMarked (mark_release_notified st y) x := by
  intro row hrow hid
  unfold mark_release_notified at hrow
  rcases List.mem_map.1 hrow with ⟨z, hz, rfl⟩
  by_cases hzy : z.id = y
  · simp [hzy]
  · simp only [if_neg hzy] at hid ⊢
    exact h z hz hid

/-- `relMarked` only depends on the releases table. -/
lemma relMarked_of_eq (st1 st2 : Storage) (x : String)
    (h : st1.releases = st2.releases) (h2 : relMarked st2 x) : relMarked st1 x := by
  intro row hrow hid
  exact h2 row (h ▸ hrow) hid

/-- Loop invariant: after folding `highImpactStep` over a release list,
every id that entered marked — or that belongs to a not-yet-notified
release of the list — is marked. -/
lemma highImpactLoop_marked (A : Analyzer) (now : Int)
    (fetchedNews : List NewsItem) (channels : List ChannelAttempt)
    (minIntervalMinutes : Int) (freshId : Nat → String) :
    ∀ (l : List UpcomingRelease) (acc : Storage × List SentimentBriefing)
      (x : String),
      (relMarked acc.1 x ∨ ∃ r ∈ l, r.notified = false ∧ r.indicator.id = x) →
      relMarked
        (l.foldl (highImpactStep A now fetchedNews channels minIntervalMinutes freshId)
          acc).1 x := by
  intro l
  induction l with
  | nil =>
    intro acc x h
    rcases h with h | ⟨r, hr, _⟩
    · exact h
    · exact absurd hr (List.not_mem_nil r)
  | cons r t ih =>
    intro acc x h
    rw [List.foldl_cons]
    by_cases hn : r.notified = false
    · have hstep : highImpactStep A now fetchedNews channels minIntervalMinutes
          freshId acc r =
          (mark_release_notified
            (send_briefing
              (generate_briefing A acc.1 now fetchedNews "high_impact"
                (some r.indicator) (freshId acc.2.length)).1
              now minIntervalMinutes channels
              (generate_briefing A acc.1 now fetchedNews "high_impact"
                (some r.indicator) (freshId acc.2.length)).2).1
            r.indicator.id,
           acc.2 ++ [(generate_briefing A acc.1 now fetchedNews "high_impact"
              (some r.indicator) (freshId acc.2.length)).2]) := by
        unfold highImpactStep
        rw [if_pos (by simp [hn])]
      rcases h with hM | ⟨r2, hr2, hn2, hx2⟩
      · refine ih _ x (Or.inl ?_)
        rw [hstep]
        refine mark_preserves _ x r.indicator.id ?_
        refine relMarked_of_eq _ acc.1 x ?_ hM
        rw [send_briefing_releases, generate_briefing_releases]
      · rcases List.mem_cons.1 hr2 with rfl | hmem
        · refine ih _ x (Or.inl ?_)
          rw [hstep, ← hx2]
          exact mark_establishes _ _
        · exact ih _ x (Or.inr ⟨r2, hmem, hn2, hx2⟩)
    · have ht : r.notified = true := by
        revert hn
        cases r.notified <;> simp
      have hstep : highImpactStep A now fetchedNews channels minIntervalMinutes
          freshId acc r = acc := by
        unfold highImpactStep
        rw [if_neg (by simp [ht])]
      rw [hstep]
      refine ih _ x ?_
      rcases h with hM | ⟨r2, hr2, hn2, hx2⟩
      · exact Or.inl hM
      · rcases List.mem_cons.1 hr2 with rfl | hmem
        · exact absurd hn2 hn
        · exact Or.inr ⟨r2, hmem, hn2, hx2⟩

/-- C10 (amended): in `check_high_impact_releases` every due, previously
unnotified high-impact release is marked notified regardless of whether
the gate allowed the send or any channel succeeded — but this does not
prevent a retry in a later cycle, because re-ingestion resets the flag
and `get_upcoming_releases` reads the unmarked snapshot (see the
counterexample). -/
theorem C10_mark_unconditional (A : Analyzer) (st : Storage) (now : Int)
    (fetchedIndicators : List EconomicIndicator) (fetchedNews : List NewsItem)
    (channels : List ChannelAttempt) (minIntervalMinutes : Int)
    (freshId : Nat → String) (r : UpcomingRelease)
    (hr : r ∈ get_upcoming_releases (update_release_schedule st now fetchedIndicators)
      now 1 true)
    (hn : r.notified = false) :
    ∀ row ∈ (check_high_impact_releases A st now fetchedIndicators fetchedNews
        channels minIntervalMinutes freshId).1.releases,
      row.id = r.indicator.id → row.notified = true := by
  unfold check_high_impact_releases
  exact highImpactLoop_marked A now fetchedNews channels minIntervalMinutes freshId
    _ _ _ (Or.inr ⟨r, hr, hn, rfl⟩)

/-- A due high-impact release 50 minutes ahead of the first cycle. -/
def nfp : EconomicIndicator :=
  { id := "nfp", name := "NFP", country := "US", release_time := 90,
    impact_level := .high }

/-- A single channel whose dispatch raises. -/
def chansFail : List ChannelAttempt := [⟨"email", .err "boom"⟩]

/-- First high-impact cycle at time 40: the alert for `nfp` is generated,
every channel fails, the release is marked. -/
def cycleOne : Storage × List SentimentBriefing :=
  check_high_impact_releases A0 emptyStorage 40 [nfp] [] chansFail 30
    (fun k => "u1-" ++ toString k)

/-- Second high-impact cycle at time 55, re-fetching the same indicator. -/
def cycleTwo : Storage × List SentimentBriefing :=
  check_high_impact_releases A0 cycleOne.1 55 [nfp] [] chansFail 30
    (fun k => "u2-" ++ toString k)

/-- A default release row for indexed lookups. -/
def relDummy : ReleaseRow :=
  ⟨"", "", "", 0, "", false,
    { id := "", name := "", country := "", release_time := 0,
      impact_level := .low }, false⟩

/-- C10 witness: after the first cycle the `nfp` release row is marked
notified even though its only channel raised. -/
theorem C10_mark_unconditional_witness :
    (cycleOne.1.releases.getD 0 relDummy).notified = true :=
  C10_mark_unconditional A0 emptyStorage 40 [nfp] [] chansFail 30
    (fun k => "u1-" ++ toString k) ⟨nfp, false⟩ (by decide) rfl
    (cycleOne.1.releases.getD 0 relDummy) (by decide) (by decide)

/-- C10 counterexample: the claim's consequence "a suppressed or failed
alert for that release is never retried in a later cycle" fails.  Cycle
one generates the `nfp` alert, the only channel raises (the briefing row
stays unsent), and the release is marked notified; yet cycle two, which
re-ingests the still-future indicator, generates a second alert for the
very same release — the re-ingestion reset the notified column, and
`get_upcoming_releases` reads the snapshot's notified value, which
`mark_release_notified` never updates. -/
theorem C10_mark_unconditional_counterexample :
    cycleOne.2.map (fun b => b.title) = ["High-Impact Alert: NFP"] ∧
    cycleOne.1.briefings.map (fun r => (r.id, r.sent)) = [("u1-0", false)] ∧
    cycleOne.1.releases.map (fun r => (r.id, r.notified)) = [("nfp", true)] ∧
    cycleTwo.2.map (fun b => b.title) = ["High-Impact Alert: NFP"] := by
  decide

end MacroAgent
